import Mathlib

/-!
# cls-mysql: verification of the context-propagating interceptor

`cls-mysql` installs wrappers around two extension points of the `mysql`
driver so that callbacks passed through them later run inside the
continuation-local (CLS) context that was active when the call was issued:

* `Protocol.prototype._enqueue` receives a unit of work (a `sequence`)
  that optionally carries a `_callback` property; the wrapper replaces a
  truthy `_callback` with `ns.bind(_callback)` and then delegates to the
  original method with the same receiver, returning its value.
* `Pool.prototype.getConnection` receives a callback directly; the wrapper
  unconditionally replaces it with `ns.bind(cb)` and delegates.

The development below embeds the shim (`src/index.js`) shallowly.  The CLS
namespace is an external collaborator; its `bind`/`set`/`get` operations are
modelled from their contract (capture the active context at bind time;
restore it for the duration of the call).  The wrapped driver is modelled as
an abstract record of the two entry points, plus a small queue machine for
the ordering claims.
-/

/-- Keys of the context-local key/value store. -/
abbrev Key := Nat

/-- Values of the context-local key/value store. -/
abbrev Val := Nat

/-- A continuation-local context: an association list of context-local
bindings, most recent `set` first. -/
abbrev Ctx := List (Key × Val)

/-- Models the external CLS facility's `namespace.get(key)`: read the
context-local value of `k` in context `c` (the most recent `set` wins). -/
def ctxGet (c : Ctx) (k : Key) : Option Val :=
  (c.find? (fun p => p.1 == k)).map (·.2)

/-- Models the external CLS facility's `namespace.set(key, value)` applied to
the active context `c`. -/
def ctxSet (c : Ctx) (k : Key) (v : Val) : Ctx :=
  (k, v) :: c

/-- The outcome a wrapped-library operation delivers to its completion
callback: either a successful result or an error, following the error-first
callback convention. -/
inductive Outcome where
  | ok (result : Nat)
  | err (code : Nat)
deriving DecidableEq

/-- The JavaScript values that can occupy a callback slot in this code:
`undefined` (absent), a client-supplied function, or a CLS-bound wrapper
produced by `ns.bind`, which captured the context active at bind time.
`ω` is the type of the observation a callback body produces. -/
inductive JsCb (ω : Type) where
  | undefined
  | plain (body : Ctx → Outcome → ω)
  | bound (captured : Ctx) (inner : JsCb ω)

/-- JavaScript truthiness of a callback slot, as tested by
`if (sequence._callback)`: `undefined` is falsy, any function is truthy. -/
def JsCb.isTruthy : JsCb ω → Bool
  | .undefined => false
  | _ => true

/-- Models the external CLS facility's `ns.bind(f)`: returns a wrapper
function that captured the context `active` at bind time; when the wrapper is
later invoked it restores that context for the duration of the call.
`ns.bind` returns a wrapper function even when `f` is `undefined`. -/
def nsBind (active : Ctx) (f : JsCb ω) : JsCb ω :=
  .bound active f

/-- Invoking a callback slot under ambient context `amb` with outcome `out`:
a plain function's body runs under the ambient context and receives the
outcome unchanged; a bound wrapper runs its inner callback under the captured
context instead, passing the outcome through unchanged; invoking `undefined`
produces no observation (it would throw). -/
def invoke : JsCb ω → Ctx → Outcome → Option ω
  | .undefined, _, _ => none
  | .plain body, amb, out => some (body amb out)
  | .bound captured inner, _, out => invoke inner captured out

/-- Strips every CLS binding layer off a callback slot, recovering the
identity of the underlying client callback. -/
def stripBound : JsCb ω → JsCb ω
  | .bound _ inner => stripBound inner
  | .plain body => .plain body
  | .undefined => .undefined

/-- A unit of work submitted to `Protocol.prototype._enqueue`: it optionally
carries a completion callback in its `_callback` property; its remaining
fields are opaque to the shim and are modelled by `payload`. -/
structure Sequence (ω : Type) where
  _callback : JsCb ω
  payload : Nat

/-- The call-time state of the CLS world: the context currently active in
each namespace, indexed by a namespace identifier.  Installed wrappers read
the active context of their namespace at call time (via `ns.bind`). -/
abbrev NsEnv := Nat → Ctx

/-- The two extension points of the wrapped `mysql` driver, as an abstract
record: `_enqueue` on `Protocol.prototype` (receiver type `ρ`, return type
`ε`) and `getConnection` on `Pool.prototype` (receiver type `π`, return type
`γ`).  Methods receive the call-time CLS state so that installed wrappers
can query their namespace's active context. -/
structure MySqlLib (ρ π ε γ ω : Type) where
  _enqueue : NsEnv → ρ → Sequence ω → ε
  getConnection : NsEnv → π → JsCb ω → γ

/-- The body of the shim's `_enqueue` wrapper acting on the unit of work:
`if (sequence._callback) sequence._callback = ns.bind(sequence._callback)`,
where `active` is the namespace's active context at call time.  A unit
without a truthy callback passes through unmodified. -/
def enqueueTransform (active : Ctx) (s : Sequence ω) : Sequence ω :=
  if s._callback.isTruthy then { s with _callback := nsBind active s._callback } else s

/-- Models `module.exports = function(ns) {...}` of `src/index.js` for
namespace `n`: replace the driver's `_enqueue` with a wrapper that rebinds a
truthy `sequence._callback` via `ns.bind` and then calls the original with
the same receiver, and replace `getConnection` with a wrapper that calls the
original with `ns.bind(cb)` and the same receiver; both wrappers return the
original's return value.  (The method replacement itself is `shimmer.wrap`
applied to a present method: the property is set to `wrapper(original)`.) -/
def install (n : Nat) (lib : MySqlLib ρ π ε γ ω) : MySqlLib ρ π ε γ ω where
  _enqueue := fun env this sequence =>
    lib._enqueue env this (enqueueTransform (env n) sequence)
  getConnection := fun env this cb =>
    lib.getConnection env this (nsBind (env n) cb)

/-- A pass-through probe library: each entry point returns exactly what it
received, exposing what an installed wrapper hands to the original method. -/
def probeLib : MySqlLib Unit Unit (Sequence (Option Val)) (JsCb (Option Val)) (Option Val) where
  _enqueue := fun _ _ s => s
  getConnection := fun _ _ cb => cb

/-- A callback body that reads the context-local value of key `k`, the
observation the context-fidelity claims are about. -/
def readKey (k : Key) : Ctx → Outcome → Option Val :=
  fun c _ => ctxGet c k

/-- One completion step of the driver's command queue: the driver invokes
the sequence's callback (when it carries one) with the outcome of the
operation, producing an invocation event that records the identity of the
underlying client callback and the outcome delivered. -/
def completeOne (s : Sequence ω) (out : Outcome) : Option (JsCb ω × Outcome) :=
  if s._callback.isTruthy then some (stripBound s._callback, out) else none

/-- The driver draining its command queue in order, pairing each queued unit
of work with the outcome of its operation and emitting the invocation events
in order. -/
def driveQueue (work : List (Sequence ω × Outcome)) : List (JsCb ω × Outcome) :=
  work.filterMap fun p => completeOne p.1 p.2

/-- Concrete CLS state used by witnesses: every namespace's active context
maps key 3 to 42. -/
def envW : NsEnv := fun _ => [(3, 42)]

/-- Concrete unit of work used by witnesses: it carries a callback that reads
key 3. -/
def seqW : Sequence (Option Val) :=
  { _callback := JsCb.plain (readKey 3), payload := 5 }

/-- Concrete unit of work without a completion callback. -/
def seqU : Sequence (Option Val) :=
  { _callback := JsCb.undefined, payload := 9 }

/-- Claim C1: a value set in the context active when a command-dispatch or
connection-acquisition call is issued is read back by `get` inside the
resulting callback, whatever context is ambient when the driver finally
invokes it.  The hypothesis `ctxGet (env n) k = some v` states that `k` was
set to `v` (and not overwritten) in the namespace's active context at issue
time; the conclusion evaluates the callback the installed wrappers hand to
the original entry points under an arbitrary ambient context. -/
theorem context_fidelity (n : Nat) (env : NsEnv) (k : Key) (v : Val)
    (amb : Ctx) (out : Outcome) (p : Nat)
    (h : ctxGet (env n) k = some v) :
    invoke ((install n probeLib)._enqueue env ()
        { _callback := JsCb.plain (readKey k), payload := p })._callback amb out
      = some (some v)
    ∧ invoke ((install n probeLib).getConnection env () (JsCb.plain (readKey k)))
        amb out
      = some (some v) := by
  constructor
  · simp [install, probeLib, enqueueTransform, JsCb.isTruthy, nsBind, invoke, readKey, h]
  · simp [install, probeLib, nsBind, invoke, readKey, h]

/-- Witness for C1 at concrete inputs: with the namespace's active context
mapping 3 to 42 at issue time, the callback observes 42 even though the
ambient context at completion time maps 3 to 7. -/
theorem context_fidelity_witness :
    ctxGet (envW 0) 3 = some 42
    ∧ (invoke ((install 0 probeLib)._enqueue envW ()
          { _callback := JsCb.plain (readKey 3), payload := 0 })._callback
          [(3, 7)] (Outcome.ok 0)
        = some (some 42)
      ∧ invoke ((install 0 probeLib).getConnection envW () (JsCb.plain (readKey 3)))
          [(3, 7)] (Outcome.ok 0)
        = some (some 42)) :=
  ⟨rfl, context_fidelity 0 envW 3 42 [(3, 7)] (Outcome.ok 0) 0 rfl⟩

/-- Claim C2: when a unit of work submitted through the installed `_enqueue`
wrapper carries a completion callback, the wrapper hands the original entry
point the unit with that callback replaced by `ns.bind` of it, with the same
receiver. -/
theorem enqueue_rebinds_callback (lib : MySqlLib ρ π ε γ ω) (n : Nat) (env : NsEnv)
    (this : ρ) (s : Sequence ω) (h : s._callback.isTruthy = true) :
    (install n lib)._enqueue env this s
      = lib._enqueue env this { s with _callback := nsBind (env n) s._callback } := by
  simp [install, enqueueTransform, h]

/-- Witness for C2 at concrete inputs, against the pass-through probe
library. -/
theorem enqueue_rebinds_callback_witness :
    seqW._callback.isTruthy = true
    ∧ (install 0 probeLib)._enqueue envW () seqW
      = probeLib._enqueue envW () { seqW with _callback := nsBind (envW 0) seqW._callback } :=
  ⟨rfl, enqueue_rebinds_callback probeLib 0 envW () seqW rfl⟩

/-- Claim C3: the installed `getConnection` wrapper delegates every call to
the original entry point with the callback replaced by `ns.bind` of it and
the same receiver. -/
theorem getConnection_rebinds_callback (lib : MySqlLib ρ π ε γ ω) (n : Nat)
    (env : NsEnv) (this : π) (cb : JsCb ω) :
    (install n lib).getConnection env this cb
      = lib.getConnection env this (nsBind (env n) cb) := rfl

/-- Claim C4: a unit of work without a completion callback passes through the
installed `_enqueue` wrapper unmodified — every field unchanged — and the
wrapped call is exactly the original call, so its observable completion
behaviour (including whether it throws) is the original's. -/
theorem enqueue_no_callback_passthrough (lib : MySqlLib ρ π ε γ ω) (n : Nat)
    (env : NsEnv) (this : ρ) (s : Sequence ω) (h : s._callback = JsCb.undefined) :
    enqueueTransform (env n) s = s
    ∧ (install n lib)._enqueue env this s = lib._enqueue env this s := by
  have ht : s._callback.isTruthy = false := by rw [h]; rfl
  refine ⟨?_, ?_⟩
  · simp [enqueueTransform, ht]
  · simp [install, enqueueTransform, ht]

/-- Witness for C4 at concrete inputs. -/
theorem enqueue_no_callback_passthrough_witness :
    seqU._callback = JsCb.undefined
    ∧ (enqueueTransform (envW 0) seqU = seqU
      ∧ (install 0 probeLib)._enqueue envW () seqU = probeLib._enqueue envW () seqU) :=
  ⟨rfl, enqueue_no_callback_passthrough probeLib 0 envW () seqU rfl⟩

/-- Claim C5: each installed entry point returns exactly what the original
entry point returns on the (possibly callback-rebound) input, for every
original library, receiver and input — installation changes no return
value. -/
theorem install_return_passthrough (lib : MySqlLib ρ π ε γ ω) (n : Nat)
    (env : NsEnv) (thisP : ρ) (thisC : π) (s : Sequence ω) (cb : JsCb ω) :
    (install n lib)._enqueue env thisP s
      = lib._enqueue env thisP (enqueueTransform (env n) s)
    ∧ (install n lib).getConnection env thisC cb
      = lib.getConnection env thisC (nsBind (env n) cb) :=
  ⟨rfl, rfl⟩

/-- A CLS-bound wrapper is a function, hence truthy. -/
theorem JsCb.isTruthy_bound (c : Ctx) (k : JsCb ω) :
    (JsCb.bound c k).isTruthy = true := rfl

/-- The `_enqueue` wrapper's rebinding does not change whether a unit of work
carries a (truthy) callback. -/
theorem isTruthy_enqueueTransform (active : Ctx) (s : Sequence ω) :
    (enqueueTransform active s)._callback.isTruthy = s._callback.isTruthy := by
  by_cases h : s._callback.isTruthy
  · simp [enqueueTransform, h, nsBind, JsCb.isTruthy_bound]
  · simp [enqueueTransform, h]

/-- The `_enqueue` wrapper's rebinding preserves the identity of the
underlying client callback. -/
theorem stripBound_enqueueTransform (active : Ctx) (s : Sequence ω) :
    stripBound (enqueueTransform active s)._callback = stripBound s._callback := by
  by_cases h : s._callback.isTruthy
  · simp [enqueueTransform, h, nsBind, stripBound]
  · simp [enqueueTransform, h]

/-- Rebinding a queued unit of work changes no invocation event: the same
underlying callback is invoked (or skipped) with the same outcome. -/
theorem completeOne_enqueueTransform (active : Ctx) (s : Sequence ω) (out : Outcome) :
    completeOne (enqueueTransform active s) out = completeOne s out := by
  unfold completeOne
  rw [isTruthy_enqueueTransform, stripBound_enqueueTransform]

/-- Claim C7: the shim changes no invocation schedule.  For any list of
submissions (each a unit of work with the context active at its submission)
and any outcomes the driver delivers, draining the queue of rebound units
emits exactly the invocation events of the unshimmed queue: same order, same
count, same underlying callback identity, same outcomes — nothing reordered,
coalesced, dropped or duplicated.  Likewise on the `getConnection` path the
bound wrapper is the same underlying callback. -/
theorem shim_preserves_invocation_schedule (subs : List (Ctx × Sequence ω))
    (outs : List Outcome) :
    driveQueue ((subs.map fun p => enqueueTransform p.1 p.2).zip outs)
      = driveQueue ((subs.map Prod.snd).zip outs)
    ∧ ∀ (c : Ctx) (cb : JsCb ω), stripBound (nsBind c cb) = stripBound cb := by
  refine ⟨?_, fun c cb => rfl⟩
  induction subs generalizing outs with
  | nil => rfl
  | cons hd tl ih =>
    cases outs with
    | nil => rfl
    | cons o os =>
      have ih' := ih os
      simp only [driveQueue, List.map_cons, List.zip_cons_cons, List.filterMap_cons,
        completeOne_enqueueTransform] at ih' ⊢
      rw [ih']

/-- Claim C8: an outcome — in particular an error — produced by a
wrapped-library operation passes through the CLS binding unchanged: the bound
callback invokes the underlying callback with exactly the outcome it was
given, and the only difference from the unshimmed invocation is the context
the body runs under. -/
theorem errors_delivered_unchanged (captured amb : Ctx) (cb : JsCb ω) (out : Outcome) :
    invoke (nsBind captured cb) amb out = invoke cb captured out
    ∧ ∀ (body : Ctx → Outcome → ω) (e : Nat),
        invoke (nsBind captured (JsCb.plain body)) amb (Outcome.err e)
          = some (body captured (Outcome.err e))
        ∧ invoke (JsCb.plain body) amb (Outcome.err e)
          = some (body amb (Outcome.err e)) :=
  ⟨rfl, fun _ _ => ⟨rfl, rfl⟩⟩

/-- Active context of the namespace installed first in the double-install
scenario; key 0 reads 1 there. -/
def ctxEarly : Ctx := [(0, 1)]

/-- Active context of the namespace installed second in the double-install
scenario; key 0 reads 2 there. -/
def ctxLate : Ctx := [(0, 2)]

/-- CLS state of the double-install scenario: namespace 1 (installed first)
has `ctxEarly` active; namespace 2 (installed second) has `ctxLate`
active. -/
def envDouble : NsEnv := fun i => if i == 1 then ctxEarly else ctxLate

/-- Unit of work submitted after both installations; its callback reads
key 0. -/
def seqDouble : Sequence (Option Val) :=
  { _callback := JsCb.plain (readKey 0), payload := 0 }

/-- Counterexample to C9 as stated: after installing namespace 1 and then
namespace 2, a submitted callback ends up as the earlier install's bind
applied OUTSIDE the later install's bind — not, as the claim has it, the
later install's bind outside the earlier one's — and invoking it runs the
body under the later namespace's context (key 0 reads 2, the value from
`ctxLate`, not 1 from `ctxEarly`). -/
theorem double_install_bind_order_counterexample :
    ((install 2 (install 1 probeLib))._enqueue envDouble () seqDouble)._callback
      = JsCb.bound ctxEarly (JsCb.bound ctxLate (JsCb.plain (readKey 0)))
    ∧ ((install 2 (install 1 probeLib))._enqueue envDouble () seqDouble)._callback
      ≠ JsCb.bound ctxLate (JsCb.bound ctxEarly (JsCb.plain (readKey 0)))
    ∧ invoke ((install 2 (install 1 probeLib))._enqueue envDouble () seqDouble)._callback
        [] (Outcome.ok 0)
      = some (some 2) := by
  refine ⟨rfl, ?_, rfl⟩
  intro hEq
  have h' : JsCb.bound ctxEarly (JsCb.bound ctxLate (JsCb.plain (readKey 0)))
      = JsCb.bound ctxLate (JsCb.bound ctxEarly (JsCb.plain (readKey 0))) := hEq
  injection h' with h1 h2
  exact absurd h1 (by decide)

/-- Claim C9 (amended): installing twice raises no error; the second
installation wraps the already-wrapped entry point, so a unit of work
submitted afterwards reaches the original entry point with its callback
bound by both namespaces in nesting order — the EARLIER install's bind
applied outside the later one's (the later install's wrapper runs first and
applies its bind to the callback first, so the later install's bind is
innermost and the later namespace's captured context is the one the callback
body finally runs under). -/
theorem double_install_nested_binding (lib : MySqlLib ρ π ε γ ω) (n1 n2 : Nat)
    (env : NsEnv) (this : ρ) (s : Sequence ω) (h : s._callback.isTruthy = true) :
    (install n2 (install n1 lib))._enqueue env this s
      = lib._enqueue env this
          { s with _callback := nsBind (env n1) (nsBind (env n2) s._callback) }
    ∧ ∀ (body : Ctx → Outcome → ω) (amb : Ctx) (out : Outcome),
        invoke (nsBind (env n1) (nsBind (env n2) (JsCb.plain body))) amb out
          = some (body (env n2) out) := by
  refine ⟨?_, fun body amb out => rfl⟩
  simp [install, enqueueTransform, h, nsBind, JsCb.isTruthy_bound]

/-- Witness for the amended C9 at concrete inputs. -/
theorem double_install_nested_binding_witness :
    seqDouble._callback.isTruthy = true
    ∧ ((install 2 (install 1 probeLib))._enqueue envDouble () seqDouble
        = probeLib._enqueue envDouble ()
            { seqDouble with
                _callback := nsBind (envDouble 1) (nsBind (envDouble 2) seqDouble._callback) }
      ∧ ∀ (body : Ctx → Outcome → Option Val) (amb : Ctx) (out : Outcome),
          invoke (nsBind (envDouble 1) (nsBind (envDouble 2) (JsCb.plain body))) amb out
            = some (body (envDouble 2) out)) :=
  ⟨rfl, double_install_nested_binding probeLib 1 2 envDouble () seqDouble rfl⟩

/-- Claim C10: the installed `getConnection` wrapper binds its callback
argument unconditionally — with no callback it still hands the original
entry point `ns.bind(undefined)`, a bound wrapper distinct from `undefined`
— whereas the `_enqueue` wrapper's presence check leaves a unit with an
`undefined` callback slot untouched. -/
theorem getConnection_binds_unconditionally (lib : MySqlLib ρ π ε γ ω) (n : Nat)
    (env : NsEnv) (this : π) (p : Nat) :
    (install n lib).getConnection env this JsCb.undefined
      = lib.getConnection env this (nsBind (env n) JsCb.undefined)
    ∧ nsBind (env n) (JsCb.undefined : JsCb ω) ≠ JsCb.undefined
    ∧ enqueueTransform (env n) ({ _callback := JsCb.undefined, payload := p } : Sequence ω)
      = { _callback := JsCb.undefined, payload := p } := by
  refine ⟨rfl, ?_, rfl⟩
  intro h
  have h' : (JsCb.bound (env n) JsCb.undefined : JsCb ω) = JsCb.undefined := h
  exact JsCb.noConfusion h'
